import Mathlib

/-!
Shallow embedding of the order-submission pipeline of the hyperliquid SDK
latency-test repository: the digest construction and nonce handling of
`src/bin/test_sdk_internal_latency.rs`, and the HTTP response classification
of `src/req.rs` (`parse_response`, `HttpClient::post`, `HttpClient::is_mainnet`).
Machine integers are modelled as `Nat` with explicit `% 2 ^ 64` where overflow
matters; fallible operations return `Except`.
-/

namespace HL

/-! ## Keccak-256

The digest step of the pipeline calls `alloy::primitives::keccak256` (an
external crate, not part of this repository).  It is the standard Keccak-256
hash: the Keccak-f[1600] permutation in a sponge with rate 136 bytes and the
legacy Keccak padding byte `0x01`.  Lanes are 64-bit words modelled as `Nat`
kept below `2 ^ 64`. -/

/-- Round constants of the Keccak-f[1600] permutation, one per round. -/
def keccakRC : List Nat :=
  [0x0000000000000001, 0x0000000000008082, 0x800000000000808a, 0x8000000080008000,
   0x000000000000808b, 0x0000000080000001, 0x8000000080008081, 0x8000000000008009,
   0x000000000000008a, 0x0000000000000088, 0x0000000080008009, 0x000000008000000a,
   0x000000008000808b, 0x800000000000008b, 0x8000000000008089, 0x8000000000008003,
   0x8000000000008002, 0x8000000000000080, 0x000000000000800a, 0x800000008000000a,
   0x8000000080008081, 0x8000000000008080, 0x0000000080000001, 0x8000000080008008]

/-- Rotation offsets of the rho step, one row per `y`; within a row the
entries run over `x`, so that `r[x][y]` sits at row `y`, column `x`. -/
def rhoRows : List (List Nat) :=
  [[0, 1, 62, 28, 27],
   [36, 44, 6, 55, 20],
   [3, 10, 43, 25, 39],
   [41, 45, 15, 21, 8],
   [18, 2, 61, 56, 14]]

/-- Rotation offsets of the rho step, at flat lane index `i = x + 5 * y`. -/
def rhoOffsets : List Nat := rhoRows.flatten

/-- Left rotation of a 64-bit lane by `n < 64` places. -/
def rotl64 (x n : Nat) : Nat := ((x <<< n) % 2 ^ 64) ||| (x >>> (64 - n))

/-- Lane `i` of a 25-lane state held as a list (missing entries read as 0). -/
def lane (A : List Nat) (i : Nat) : Nat := A.getD i 0

/-- One round of Keccak-f[1600]: the theta, rho, pi, chi and iota steps. -/
def keccakRound (A : List Nat) (rc : Nat) : List Nat :=
  let C := fun x => lane A x ^^^ lane A (x + 5) ^^^ lane A (x + 10) ^^^
    lane A (x + 15) ^^^ lane A (x + 20)
  let D := fun x => C ((x + 4) % 5) ^^^ rotl64 (C ((x + 1) % 5)) 1
  let A1 := (List.range 25).map (fun i => lane A i ^^^ D (i % 5))
  let B := (List.range 25).map (fun i =>
    let src := (i % 5 + 3 * (i / 5)) % 5 + 5 * (i % 5)
    rotl64 (lane A1 src) (lane rhoOffsets src))
  let A2 := (List.range 25).map (fun i =>
    lane B i ^^^ ((lane B ((i % 5 + 1) % 5 + 5 * (i / 5)) ^^^ (2 ^ 64 - 1)) &&&
      lane B ((i % 5 + 2) % 5 + 5 * (i / 5))))
  match A2 with
  | a0 :: rest => (a0 ^^^ rc) :: rest
  | [] => []

/-- The full Keccak-f[1600] permutation: 24 rounds. -/
def keccakF (A : List Nat) : List Nat := keccakRC.foldl keccakRound A

/-- Combine up to 8 bytes, least significant first, into one 64-bit lane. -/
def bytesToLane (bs : List Nat) : Nat := bs.foldr (fun b acc => b + 256 * acc) 0

/-- The 8 bytes of a 64-bit lane, least significant first. -/
def laneToBytes (l : Nat) : List Nat :=
  [l % 256, l / 2 ^ 8 % 256, l / 2 ^ 16 % 256, l / 2 ^ 24 % 256,
   l / 2 ^ 32 % 256, l / 2 ^ 40 % 256, l / 2 ^ 48 % 256, l / 2 ^ 56 % 256]

/-- Absorb one 136-byte block into the sponge state and permute. -/
def absorbBlock (st block : List Nat) : List Nat :=
  keccakF ((List.range 25).map (fun i =>
    if i < 17 then lane st i ^^^ bytesToLane ((block.drop (8 * i)).take 8)
    else lane st i))

/-- Legacy Keccak multi-rate padding with domain byte `0x01` (rate 136). -/
def keccakPad (m : List Nat) : List Nat :=
  let q := 136 - m.length % 136
  if q == 1 then m ++ [0x81] else m ++ 0x01 :: (List.replicate (q - 2) 0 ++ [0x80])

/-- Keccak-256 of a byte string: absorb the padded message block by block,
then squeeze the first 32 bytes of the state (lanes 0..3, little-endian). -/
def keccak256 (m : List Nat) : List Nat :=
  let padded := keccakPad m
  let final := (List.range (padded.length / 136)).foldl
    (fun st i => absorbBlock st ((padded.drop (136 * i)).take 136))
    (List.replicate 25 0)
  laneToBytes (lane final 0) ++ laneToBytes (lane final 1) ++
    laneToBytes (lane final 2) ++ laneToBytes (lane final 3)

/-! ## Digest construction

`src/bin/test_sdk_internal_latency.rs` lines 112-116 build the signing
preimage from the canonical action bytes (`rmp_serde::to_vec_named(&action)`,
taken as input here), then `bytes.extend(timestamp.to_be_bytes())`, then
`bytes.push(0)` (no vault address), then hash with `keccak256`. -/

/-- The 8 bytes of `u64::to_be_bytes`: big-endian, most significant first.
For `n < 2 ^ 64` this is exactly the Rust value; larger `n` are truncated the
way a `u64` would be. -/
def u64_to_be_bytes (n : Nat) : List Nat :=
  [n / 2 ^ 56 % 256, n / 2 ^ 48 % 256, n / 2 ^ 40 % 256, n / 2 ^ 32 % 256,
   n / 2 ^ 24 % 256, n / 2 ^ 16 % 256, n / 2 ^ 8 % 256, n % 256]

/-- The `connection_id` digest of step 5 of the pipeline: canonical action
bytes, then the nonce as 8 big-endian bytes, then the single marker byte 0
(no vault address), hashed with Keccak-256. -/
def connection_id (action_bytes : List Nat) (nonce : Nat) : List Nat :=
  keccak256 (action_bytes ++ u64_to_be_bytes nonce ++ [0])

/-! ## JSON parsing of the structured error body

`parse_response` in `src/req.rs` tries `serde_json::from_str::<ErrorData>` on
the body of a failed response.  `serde_json` is an external crate; the parse
of the error schema is modelled here from the spec's wire-protocol section:
the error body is a JSON object `\x7b code: u16, msg: string, data: string \x7d`.
The parser is a total, fuel-bounded recursive descent over the characters. -/

/-- The opening brace character of a JSON object. -/
def lbrace : Char := Char.ofNat 123

/-- The closing brace character of a JSON object. -/
def rbrace : Char := Char.ofNat 125

/-- A JSON scalar as far as the error schema needs: a string or a number. -/
inductive JVal where
  | str (s : String)
  | num (n : Nat)
deriving DecidableEq

/-- Drop leading JSON whitespace. -/
def skipWs : List Char → List Char
  | [] => []
  | c :: cs => if c = ' ' ∨ c = '\n' ∨ c = '\t' ∨ c = '\r' then skipWs cs else c :: cs

/-- Characters of a JSON string after its opening quote, with the rest of the
input after the closing quote; common backslash escapes are unescaped. -/
def parseStringChars : Nat → List Char → Except String (List Char × List Char)
  | 0, _ => .error "parse fuel exhausted"
  | _ + 1, [] => .error "EOF while parsing a string"
  | fuel + 1, c :: cs =>
    if c = '"' then .ok ([], cs)
    else if c = '\\' then
      match cs with
      | [] => .error "EOF while parsing an escape"
      | e :: cs2 =>
        let ec := if e = 'n' then '\n' else if e = 't' then '\t'
          else if e = 'r' then '\r' else e
        match parseStringChars fuel cs2 with
        | .ok (s, r) => .ok (ec :: s, r)
        | .error err => .error err
    else
      match parseStringChars fuel cs with
      | .ok (s, r) => .ok (c :: s, r)
      | .error err => .error err

/-- A nonnegative JSON number at the head of the input. -/
def parseNumValue (cs : List Char) : Except String (JVal × List Char) :=
  let ds := cs.takeWhile (fun c => c.isDigit)
  if ds.isEmpty then .error "expected a JSON value"
  else .ok (.num (ds.foldl (fun a c => 10 * a + (c.toNat - 48)) 0), cs.drop ds.length)

/-- One JSON scalar value (string or number) at the head of the input. -/
def parseValue (fuel : Nat) (cs : List Char) : Except String (JVal × List Char) :=
  match skipWs cs with
  | [] => .error "EOF while parsing a value"
  | c :: rest =>
    if c = '"' then
      match parseStringChars fuel rest with
      | .ok (s, r) => .ok (.str ⟨s⟩, r)
      | .error err => .error err
    else if c.isDigit then parseNumValue (c :: rest)
    else .error "unsupported JSON value"

/-- The members of a JSON object after its opening brace. -/
def parseMembers : Nat → List Char → Except String (List (String × JVal) × List Char)
  | 0, _ => .error "parse fuel exhausted"
  | fuel + 1, cs =>
    match skipWs cs with
    | [] => .error "EOF while parsing an object"
    | c :: rest =>
      if c = rbrace then .ok ([], rest)
      else if c = '"' then
        match parseStringChars fuel rest with
        | .error err => .error err
        | .ok (key, r1) =>
          match skipWs r1 with
          | ':' :: r2 =>
            match parseValue fuel r2 with
            | .error err => .error err
            | .ok (v, r3) =>
              match skipWs r3 with
              | ',' :: r4 =>
                match parseMembers fuel r4 with
                | .ok (ms, r) => .ok ((⟨key⟩, v) :: ms, r)
                | .error err => .error err
              | c2 :: r4 =>
                if c2 = rbrace then .ok ([(⟨key⟩, v)], r4)
                else .error "expected a comma or the end of the object"
              | [] => .error "EOF after an object member"
          | _ => .error "expected a colon after a key"
      else .error "expected a key"

/-- A whole JSON object covering the entire input. -/
def parseObject (cs : List Char) : Except String (List (String × JVal)) :=
  match skipWs cs with
  | c :: rest =>
    if c = lbrace then
      match parseMembers (2 * cs.length + 8) rest with
      | .ok (ms, r) =>
        match skipWs r with
        | [] => .ok ms
        | _ => .error "trailing characters after the object"
      | .error err => .error err
    else .error "expected an object"
  | [] => .error "EOF while parsing an object"

/-- The `ErrorData` struct of `src/req.rs`: the structured error body
`\x7b data, code, msg \x7d` with `code : u16`. -/
structure ErrorData where
  data : String
  code : Nat
  msg : String
deriving DecidableEq

/-- Modelled from the spec: `serde_json::from_str::<ErrorData>` (external
crate `serde_json`, not in this repository's files).  Parses facts the spec's
wire-protocol section fixes: a JSON object whose fields `code` (a `u16`
number), `msg` and `data` (strings) give the structured error; anything else
is a parse failure carrying a description. -/
def from_str_error_data (text : String) : Except String ErrorData :=
  match parseObject text.data with
  | .error e => .error e
  | .ok ms =>
    match ms.lookup "data", ms.lookup "code", ms.lookup "msg" with
    | some (.str d), some (.num c), some (.str m) =>
      if c < 65536 then .ok ⟨d, c, m⟩
      else .error "invalid value: integer out of range for u16"
    | _, _, _ => .error "missing or mistyped field for ErrorData"

/-! ## Response classification (`src/req.rs`) -/

/-- The error taxonomy of the crate as `parse_response` and `post` use it:
`GenericRequest` is the transport-error wrapper, `ClientRequest` a 4xx
rejection, `ServerRequest` a 5xx fault. -/
inductive Error where
  | GenericRequest (message : String)
  | ClientRequest (status_code : Nat) (error_code : Option Nat)
      (error_message : String) (error_data : Option String)
  | ServerRequest (status_code : Nat) (error_message : String)
deriving DecidableEq

/-- `parse_response` of `src/req.rs` lines 19-52.  `text_result` is the
outcome of `response.text().await` (reading the body can itself fail, and is
mapped to `Error::GenericRequest`).  Status below 400 returns the raw body;
400-499 returns `ClientRequest` built from the parsed error body or, when
the body does not parse, from the raw body and the parse-failure description;
everything else returns `ServerRequest`. -/
def parse_response (status_code : Nat) (text_result : Except String String) :
    Except Error String :=
  match text_result with
  | .error e => .error (.GenericRequest e)
  | .ok text =>
    if status_code < 400 then .ok text
    else
      let error_data := from_str_error_data text
      if 400 ≤ status_code ∧ status_code < 500 then
        .error (match error_data with
          | .ok ed => .ClientRequest status_code (some ed.code) ed.msg (some ed.data)
          | .error err => .ClientRequest status_code none text (some err))
      else .error (.ServerRequest status_code text)

/-- `HttpClient::post` of `src/req.rs`, with the transport effects supplied
as explicit results: `build_result` is `Client::post(..).build()`,
`execute_result` is `Client::execute(request).await` carrying the status code
on success, `text_result` the body read.  Each transport failure is mapped to
`Error::GenericRequest` of its description. -/
def post (build_result : Except String Unit) (execute_result : Except String Nat)
    (text_result : Except String String) : Except Error String :=
  match build_result with
  | .error e => .error (.GenericRequest e)
  | .ok _ =>
    match execute_result with
    | .error e => .error (.GenericRequest e)
    | .ok status_code => parse_response status_code text_result

/-- The outcome taxonomy of the spec's data model. -/
inductive Outcome where
  | Filled (oid : Nat)
  | Resting (oid : Nat)
  | OtherStatus (raw : String)
  | ClientError (status : Nat) (code : Option Nat) (message : String)
      (data : Option String)
  | ServerError (status : Nat) (message : String)
  | TransportError (message : String)
deriving DecidableEq

/-- Modelled from the spec: the Response Classifier.  The success-payload
decoding lives in the SDK's `ExchangeClient`, not in this repository's files,
so the decoder is abstracted as `decode`; a raw body with status below 400
that the decoder rejects is classified `OtherStatus(raw)`, and the error
variants of `parse_response` map onto the spec's outcome taxonomy. -/
def classify (decode : String → Option Outcome) (status_code : Nat)
    (text_result : Except String String) : Outcome :=
  match parse_response status_code text_result with
  | .ok raw =>
    match decode raw with
    | some oc => oc
    | none => .OtherStatus raw
  | .error (.GenericRequest m) => .TransportError m
  | .error (.ClientRequest st c m d) => .ClientError st c m d
  | .error (.ServerRequest st m) => .ServerError st m

/-- Modelled from the spec and the call sites: `BaseUrl::Mainnet.get_url()`
(the `BaseUrl` enum is part of the SDK crate, not of this repository's files);
`src/bin/test_sdk_internal_latency.rs` line 158 posts to this host. -/
def mainnet_url : String := "https://api.hyperliquid.xyz"

/-- The `HttpClient` struct of `src/req.rs` as far as `is_mainnet` needs it. -/
structure HttpClient where
  base_url : String

/-- `HttpClient::is_mainnet` of `src/req.rs` lines 101-103: an exact string
equality test of `base_url` against the mainnet URL. -/
def HttpClient.is_mainnet (c : HttpClient) : Bool := c.base_url == mainnet_url

/-! ## Instrumented `HttpClient::post`

`src/req.rs` lines 55-99 gate per-stage timing on the `HL_PERF_PROFILE`
environment flag (`perf_profile`).  `Instant::now()` is modelled by an
abstract clock: the `k`-th call reads `clock k`; a call counter is threaded
so that when the flag is off the clock is never consulted.  Each `eprintln!`
of a stage duration is modelled as a log entry (message, elapsed ticks). -/

/-- `HttpClient::post` with instrumentation, returning the result plus the
emitted timing log.  The early `?` returns of the build and execute steps
skip the later prints, exactly as in the source. -/
def post_instr (perf_profile : Bool) (clock : Nat → Nat)
    (build_result : Except String Unit) (execute_result : Except String Nat)
    (text_result : Except String String) :
    Except Error String × List (String × Nat) :=
  let (http_start, k1) := if perf_profile then (some (clock 0), 1) else (none, 0)
  let (step1_start, k2) :=
    if perf_profile then (some (clock k1), k1 + 1) else (none, k1)
  match build_result with
  | .error e => (.error (.GenericRequest e), [])
  | .ok _ =>
    let (log1, k3) :=
      match step1_start with
      | some s => ([("[PERF] HTTP Step 1 - Build request", clock k2 - s)], k2 + 1)
      | none => ([], k2)
    let (step2_start, k4) :=
      if perf_profile then (some (clock k3), k3 + 1) else (none, k3)
    match execute_result with
    | .error e => (.error (.GenericRequest e), log1)
    | .ok status_code =>
      let (log2, k5) :=
        match step2_start with
        | some s =>
          (log1 ++ [("[PERF] HTTP Step 2 - Execute (network + server)", clock k4 - s)],
            k4 + 1)
        | none => (log1, k4)
      let (step3_start, k6) :=
        if perf_profile then (some (clock k5), k5 + 1) else (none, k5)
      let result := parse_response status_code text_result
      let (log3, k7) :=
        match step3_start with
        | some s =>
          (log2 ++ [("[PERF] HTTP Step 3 - Parse response", clock k6 - s)], k6 + 1)
        | none => (log2, k6)
      let log4 :=
        match http_start with
        | some s => log3 ++ [("[PERF] HTTP total time", clock k7 - s)]
        | none => log3
      (result, log4)

/-! ## Nonce generation

`next_nonce` lives in `hyperliquid_rust_sdk::helpers`, outside this
repository's files; only its call site (`src/bin/test_sdk_internal_latency.rs`
line 104) is here. -/

/-- Modelled from the spec: `next_nonce` issues a nonce "sourced from
wall-clock milliseconds with a safeguard against regression (never reused,
never decreasing within a process)".  `now` is the wall-clock reading, `last`
the process-wide last-issued nonce; when the clock has not advanced past
`last` the safeguard issues `last + 1`. -/
def next_nonce (now last : Nat) : Nat := if last < now then now else last + 1

/-- The nonces issued by a sequence of atomic `next_nonce` steps, one per
clock reading, threading the process-wide last-issued state.  The spec makes
each concurrent read-and-advance atomic, so any concurrent run is some such
sequence in real-time order. -/
def nonce_run (last : Nat) : List Nat → List Nat
  | [] => []
  | now :: rest => next_nonce now last :: nonce_run (next_nonce now last) rest

/-! ## Envelope serialization

`serialize_sig` and the payload of `src/bin/test_sdk_internal_latency.rs`
lines 138-151: `r` and `s` are printed with `format!("0x\x7b:064x\x7d", ..)`
(lower-case hex, zero-padded on the left to width 64) and
`v = 27 + sig.v() as u64` where `sig.v()` is the recovery parity. -/

/-- The lower-case hexadecimal digit for `d < 16`, as Rust's `\x7b:x\x7d`. -/
def hexDigitChar (d : Nat) : Char :=
  if d < 10 then Char.ofNat (48 + d) else Char.ofNat (87 + d)

/-- The hexadecimal digits of `n`, most significant first; empty for 0. -/
def hexDigitsAux (n : Nat) : List Char :=
  if _h : n = 0 then [] else hexDigitsAux (n / 16) ++ [hexDigitChar (n % 16)]
termination_by n
decreasing_by exact Nat.div_lt_self (Nat.pos_of_ne_zero _h) (by norm_num)

/-- Rust's `format!("\x7b:064x\x7d", n)` as a character list: the hex digits
of `n` (just "0" for 0), zero-padded on the left to a minimum width of 64. -/
def format_064x (n : Nat) : List Char :=
  let ds := if n = 0 then ['0'] else hexDigitsAux n
  List.replicate (64 - ds.length) '0' ++ ds

/-- The signature JSON object `\x7b r, s, v \x7d` of `serialize_sig`. -/
structure SigJson where
  r : String
  s : String
  v : Nat
deriving DecidableEq

/-- `serialize_sig` of `src/bin/test_sdk_internal_latency.rs` lines 138-144:
`r` and `s` prefixed with "0x" and zero-padded to 64 hex digits, and
`v = 27 + parity`. -/
def serialize_sig (r s : Nat) (parity : Bool) : SigJson :=
  ⟨⟨'0' :: 'x' :: format_064x r⟩, ⟨'0' :: 'x' :: format_064x s⟩,
   27 + (if parity then 1 else 0)⟩

/-- The wire envelope `\x7b action, nonce, signature \x7d`; the action's JSON
form is opaque to this layer. -/
structure Payload (α : Type) where
  action : α
  nonce : Nat
  signature : SigJson

/-- The payload built at lines 146-150: exactly the three fields action,
nonce and signature. -/
def build_payload {α : Type} (action_json : α) (nonce : Nat)
    (signature : SigJson) : Payload α :=
  ⟨action_json, nonce, signature⟩

/-! ## Theorems -/

theorem keccak256_length (m : List Nat) : (keccak256 m).length = 32 := by
  simp [keccak256, laneToBytes]

theorem keccak256_bytes_lt (m : List Nat) : ∀ b ∈ keccak256 m, b < 256 := by
  intro b hb
  simp [keccak256, laneToBytes, List.mem_append] at hb
  rcases hb with h | h | h | h <;> rcases h with h | h | h | h | h | h | h | h <;> omega

set_option maxRecDepth 10000 in
theorem keccak256_empty_input :
    keccak256 [] =
      [0xc5, 0xd2, 0x46, 0x01, 0x86, 0xf7, 0x23, 0x3c, 0x92, 0x7e, 0x7d, 0xb2,
       0xdc, 0xc7, 0x03, 0xc0, 0xe5, 0x00, 0xb6, 0x53, 0xca, 0x82, 0x27, 0x3b,
       0x7b, 0xfa, 0xd8, 0x04, 0x5d, 0x85, 0xa4, 0x70] := by decide

/-- C1: the digest signing preimage is exactly the canonical action bytes,
followed by the nonce as 8 big-endian bytes, followed by the single marker
byte 0 (no vault address); hashing it yields a fixed 32-byte digest, and the
construction is deterministic in (action, nonce). -/
theorem connection_id_preimage_spec (action_bytes : List Nat) (nonce : Nat) :
    connection_id action_bytes nonce =
      keccak256 (action_bytes ++ u64_to_be_bytes nonce ++ [0]) ∧
    (u64_to_be_bytes nonce).length = 8 ∧
    (connection_id action_bytes nonce).length = 32 ∧
    (∀ b ∈ connection_id action_bytes nonce, b < 256) ∧
    ∀ a2 n2, action_bytes = a2 → nonce = n2 →
      connection_id action_bytes nonce = connection_id a2 n2 := by
  refine ⟨rfl, rfl, keccak256_length _, keccak256_bytes_lt _, ?_⟩
  rintro a2 n2 rfl rfl
  rfl

/-- C2: a 4xx response whose body parses as the structured error schema
yields `ClientRequest` with the parsed code, message and data; one whose body
does not parse yields `ClientRequest` with no code, the raw body as message,
and the parse-failure description as data. -/
theorem parse_response_client_error (status_code : Nat) (text : String)
    (h4 : 400 ≤ status_code) (h5 : status_code < 500) :
    (∀ ed, from_str_error_data text = .ok ed →
      parse_response status_code (.ok text) =
        .error (.ClientRequest status_code (some ed.code) ed.msg (some ed.data))) ∧
    (∀ err, from_str_error_data text = .error err →
      parse_response status_code (.ok text) =
        .error (.ClientRequest status_code none text (some err))) := by
  have hlt : ¬ status_code < 400 := by omega
  constructor
  · intro ed hed
    simp [parse_response, hlt, h4, h5, hed]
  · intro err herr
    simp [parse_response, hlt, h4, h5, herr]

/-- C2 witness: status 422 with the structured body of the spec's example. -/
theorem parse_response_client_error_witness :
    parse_response 422 (.ok "\x7b\"code\":12,\"msg\":\"bad nonce\",\"data\":\"x\"\x7d") =
      .error (.ClientRequest 422 (some 12) "bad nonce" (some "x")) :=
  (parse_response_client_error 422
      "\x7b\"code\":12,\"msg\":\"bad nonce\",\"data\":\"x\"\x7d"
      (by norm_num) (by norm_num)).1 ⟨"x", 12, "bad nonce"⟩ rfl

/-- C3: any response with status at least 500 is classified `ServerRequest`
carrying the status and the raw body. -/
theorem parse_response_server_error (status_code : Nat) (text : String)
    (h : 500 ≤ status_code) :
    parse_response status_code (.ok text) =
      .error (.ServerRequest status_code text) := by
  have h1 : ¬ status_code < 400 := by omega
  have h2 : ¬ status_code < 500 := by omega
  simp [parse_response, h1, h2]

/-- C3 witness: status 503 with body "upstream down". -/
theorem parse_response_server_error_witness :
    parse_response 503 (.ok "upstream down") =
      .error (.ServerRequest 503 "upstream down") :=
  parse_response_server_error 503 "upstream down" (by norm_num)

/-- C9: a response with status below 400 is returned as `Ok` with the raw
body exactly as received; the error branches are not taken. -/
theorem parse_response_ok_passthrough (status_code : Nat) (text : String)
    (h : status_code < 400) :
    parse_response status_code (.ok text) = .ok text := by
  simp [parse_response, h]

/-- C9 witness: status 200 passes any body through untouched. -/
theorem parse_response_ok_passthrough_witness :
    parse_response 200 (.ok "not json at all") = .ok "not json at all" :=
  parse_response_ok_passthrough 200 "not json at all" (by norm_num)

/-- C4: a body with status below 400 that the success decoder rejects does
not crash the classifier: it is classified `OtherStatus` with the raw body. -/
theorem classify_other_status (decode : String → Option Outcome)
    (status_code : Nat) (text : String)
    (h : status_code < 400) (hd : decode text = none) :
    classify decode status_code (.ok text) = .OtherStatus text := by
  simp [classify, parse_response, h, hd]

/-- C4 witness: status 200 with a body the decoder rejects. -/
theorem classify_other_status_witness :
    classify (fun _ => none) 200 (.ok "not json at all") =
      .OtherStatus "not json at all" :=
  classify_other_status (fun _ => none) 200 "not json at all" (by norm_num) rfl

/-- C6: each transport-layer failure inside `HttpClient::post` — request
construction, request execution, or reading the response body — is returned
as `Error::GenericRequest` wrapping the failure's description. -/
theorem post_transport_errors :
    (∀ (e : String) (x : Except String Nat) (t : Except String String),
      post (.error e) x t = .error (.GenericRequest e)) ∧
    (∀ (e : String) (t : Except String String),
      post (.ok ()) (.error e) t = .error (.GenericRequest e)) ∧
    (∀ (s : Nat) (e : String),
      post (.ok ()) (.ok s) (.error e) = .error (.GenericRequest e)) :=
  ⟨fun _ _ _ => rfl, fun _ _ => rfl, fun _ _ => rfl⟩

/-- C8: with the instrumentation flag off, `post` consults no clock, emits no
timing entry and returns exactly what the uninstrumented pipeline returns;
with the flag on, on a completed run it emits the three stage durations and
the total, each from a timestamp pair straddling its stage. -/
theorem post_instr_toggle :
    (∀ (clock clock2 : Nat → Nat) (b : Except String Unit)
        (x : Except String Nat) (t : Except String String),
      post_instr false clock b x t = post_instr false clock2 b x t) ∧
    (∀ (clock : Nat → Nat) (b : Except String Unit) (x : Except String Nat)
        (t : Except String String),
      (post_instr false clock b x t).2 = [] ∧
      (post_instr false clock b x t).1 = post b x t) ∧
    (∀ (clock : Nat → Nat) (s : Nat) (t : Except String String),
      (post_instr true clock (.ok ()) (.ok s) t).2 =
        [("[PERF] HTTP Step 1 - Build request", clock 2 - clock 1),
         ("[PERF] HTTP Step 2 - Execute (network + server)", clock 4 - clock 3),
         ("[PERF] HTTP Step 3 - Parse response", clock 6 - clock 5),
         ("[PERF] HTTP total time", clock 7 - clock 0)] ∧
      (post_instr true clock (.ok ()) (.ok s) t).1 = parse_response s t) := by
  refine ⟨?_, ?_, ?_⟩
  · intro clock clock2 b x t
    cases b <;> cases x <;> rfl
  · intro clock b x t
    cases b <;> cases x <;> exact ⟨rfl, rfl⟩
  · intro clock s t
    exact ⟨rfl, rfl⟩

/-- C10: `is_mainnet` is an exact, character-for-character string equality
test of `base_url` against the mainnet URL; any other spelling of the
endpoint tests false. -/
theorem is_mainnet_exact_url (c : HttpClient) :
    (c.is_mainnet = true ↔ c.base_url = mainnet_url) ∧
    (HttpClient.mk "https://api.hyperliquid.xyz").is_mainnet = true ∧
    (HttpClient.mk "https://api.hyperliquid.xyz/").is_mainnet = false ∧
    (HttpClient.mk "https://API.hyperliquid.xyz").is_mainnet = false ∧
    (HttpClient.mk "https://testnet.api.hyperliquid.xyz").is_mainnet = false := by
  refine ⟨?_, by decide, by decide, by decide, by decide⟩
  simp [HttpClient.is_mainnet]

theorem nonce_run_length (clocks : List Nat) :
    ∀ last, (nonce_run last clocks).length = clocks.length := by
  induction clocks with
  | nil => intro last; rfl
  | cons c cs ih => intro last; simp [nonce_run, ih]

theorem nonce_run_gt (clocks : List Nat) :
    ∀ (last x : Nat), x ∈ nonce_run last clocks → last < x := by
  induction clocks with
  | nil => intro last x hx; simp [nonce_run] at hx
  | cons c cs ih =>
    intro last x hx
    have hstep : last < next_nonce c last := by
      unfold next_nonce; split <;> omega
    simp only [nonce_run, List.mem_cons] at hx
    rcases hx with rfl | hx
    · exact hstep
    · exact lt_trans hstep (ih _ _ hx)

theorem nonce_run_pairwise_lt (clocks : List Nat) :
    ∀ last, (nonce_run last clocks).Pairwise (· < ·) := by
  induction clocks with
  | nil => intro last; simp [nonce_run]
  | cons c cs ih =>
    intro last
    simp only [nonce_run, List.pairwise_cons]
    exact ⟨fun x hx => nonce_run_gt cs _ x hx, ih _⟩

/-- C7: any sequence of atomic `next_nonce` steps issues as many nonces as
clock readings, all pairwise distinct, with every later nonce at least (in
fact strictly greater than) every earlier one. -/
theorem next_nonce_monotone_distinct (last : Nat) (clocks : List Nat) :
    (nonce_run last clocks).length = clocks.length ∧
    (nonce_run last clocks).Pairwise (· ≠ ·) ∧
    (nonce_run last clocks).Pairwise (· ≤ ·) ∧
    (nonce_run last clocks).Pairwise (· < ·) := by
  have hp := nonce_run_pairwise_lt clocks last
  exact ⟨nonce_run_length clocks last, hp.imp (fun h => Nat.ne_of_lt h),
    hp.imp (fun h => Nat.le_of_lt h), hp⟩

theorem hexDigitsAux_length_le : ∀ (k n : Nat), n < 16 ^ k →
    (hexDigitsAux n).length ≤ k := by
  intro k
  induction k with
  | zero =>
    intro n h
    have hn : n = 0 := by simpa using h
    subst hn
    rw [hexDigitsAux]
    simp
  | succ k ih =>
    intro n h
    rw [hexDigitsAux]
    by_cases hn : n = 0
    · simp [hn]
    · rw [dif_neg hn, List.length_append]
      have hdiv : n / 16 < 16 ^ k := by
        rw [pow_succ] at h
        exact Nat.div_lt_of_lt_mul (by omega)
      have := ih (n / 16) hdiv
      simp only [List.length_singleton]
      omega

theorem format_064x_length (n : Nat) (h : n < 2 ^ 256) :
    (format_064x n).length = 64 := by
  have h16 : n < 16 ^ 64 := by
    have : (16 : Nat) ^ 64 = 2 ^ 256 := by norm_num
    omega
  unfold format_064x
  by_cases hn : n = 0
  · simp [hn]
  · have hlen := hexDigitsAux_length_le 64 n h16
    simp only [hn, if_false, List.length_append, List.length_replicate]
    omega

/-- C5: the envelope serializer produces exactly the object
(action, nonce, signature), and the signature object carries `r` and `s` as
"0x" plus exactly 64 zero-padded hex characters, with the recovery value
normalized to 27 plus the recovery parity. -/
theorem serialize_sig_spec (r s : Nat) (parity : Bool)
    (hr : r < 2 ^ 256) (hs : s < 2 ^ 256) :
    (serialize_sig r s parity).r = String.mk ('0' :: 'x' :: format_064x r) ∧
    (serialize_sig r s parity).s = String.mk ('0' :: 'x' :: format_064x s) ∧
    (format_064x r).length = 64 ∧
    (format_064x s).length = 64 ∧
    (serialize_sig r s parity).v = 27 + (if parity then 1 else 0) ∧
    ((serialize_sig r s parity).v = 27 ∨ (serialize_sig r s parity).v = 28) ∧
    ∀ (α : Type) (action_json : α) (nonce : Nat),
      build_payload action_json nonce (serialize_sig r s parity) =
        ⟨action_json, nonce, serialize_sig r s parity⟩ := by
  refine ⟨rfl, rfl, format_064x_length r hr, format_064x_length s hs, rfl, ?_,
    fun α a n => rfl⟩
  cases parity <;> simp [serialize_sig]

/-- C5 witness: concrete r, s and parity; 64 hex characters, v = 28. -/
theorem serialize_sig_spec_witness :
    (format_064x 1).length = 64 ∧ (serialize_sig 1 2 true).v = 28 := by
  have h := serialize_sig_spec 1 2 true (by norm_num) (by norm_num)
  exact ⟨h.2.2.1, by simpa using h.2.2.2.2.1⟩

end HL
